import Mathlib

/-!
Shallow embedding of the OpenSpace `SpiceManager` (src/util/spicemanager.cpp)
and verification of its specification claims.

Modelling conventions:
* Ephemeris times, positions and matrix entries are modelled as rationals (`ℚ`);
  the C++ code uses `double`, but every claim under consideration is about the
  control flow and the exact linear arithmetic performed on these values.
* The underlying CSPICE library is modelled as an oracle (`SpiceLib`): a record
  of pure functions giving, for each primitive call, either its result or
  `none` for "the call raised the library's internal failure flag".
* The manager itself is a state record (`SpiceManager`) holding the kernel
  registry and the four coverage tables, mirroring the C++ member variables
  (`_loadedKernels`, `_lastAssignedKernel`, `_spkIntervals`,
  `_spkCoverageTimes`, `_ckIntervals`, `_ckCoverageTimes`, `_useExceptions`).
  Two extra fields model the observable state of the underlying library:
  `spiceLoaded` (the files currently furnished into CSPICE) and `furnshCount`
  (how many times `furnsh_c` has been invoked).
* C++ member maps `std::map<int, T>` are modelled as association lists,
  `std::set<double>` as lists understood as finite sets (the code only ever
  uses set operations that are order-insensitive on the underlying set:
  `begin` = minimum, `rbegin` = maximum, `lower_bound == begin` = "no element
  below", `upper_bound == end` = "no element above", `prev (lower_bound t)` =
  greatest element `< t`, `upper_bound t` = least element `> t`).
* Functions that can throw `SpiceException` return `Except String α`; the
  in/out `double& lightTime` parameter is modelled by passing the current
  value in and returning the new value in the result pair.
-/

/-- A 3-vector of rationals, modelling `glm::dvec3`. -/
structure Vec3 where
  x : ℚ
  y : ℚ
  z : ℚ
deriving DecidableEq, Repr

def Vec3.zero : Vec3 := ⟨0, 0, 0⟩

def Vec3.add (a b : Vec3) : Vec3 := ⟨a.x + b.x, a.y + b.y, a.z + b.z⟩

instance : Add Vec3 := ⟨Vec3.add⟩

/-- Scalar multiplication, modelling `glm::dvec3 * double`. -/
def Vec3.smul (c : ℚ) (v : Vec3) : Vec3 := ⟨c * v.x, c * v.y, c * v.z⟩

/-- Negation, modelling the `* -1.0` applied in `targetPosition`. -/
def Vec3.neg (v : Vec3) : Vec3 := ⟨-v.x, -v.y, -v.z⟩

theorem Vec3.neg_neg (v : Vec3) : v.neg.neg = v := by
  cases v
  simp [Vec3.neg]

/-- A 3x3 matrix of rationals, modelling `glm::dmat3`. -/
structure Mat3 where
  m00 : ℚ
  m01 : ℚ
  m02 : ℚ
  m10 : ℚ
  m11 : ℚ
  m12 : ℚ
  m20 : ℚ
  m21 : ℚ
  m22 : ℚ
deriving DecidableEq, Repr

/-- The identity matrix `glm::dmat3(1.0)`. -/
def Mat3.identity : Mat3 := ⟨1, 0, 0, 0, 1, 0, 0, 0, 1⟩

/-- Matrix transposition, `glm::transpose`. -/
def Mat3.transpose (m : Mat3) : Mat3 :=
  ⟨m.m00, m.m10, m.m20, m.m01, m.m11, m.m21, m.m02, m.m12, m.m22⟩

/-- Component-wise matrix addition. -/
def Mat3.add (a b : Mat3) : Mat3 :=
  ⟨a.m00 + b.m00, a.m01 + b.m01, a.m02 + b.m02,
   a.m10 + b.m10, a.m11 + b.m11, a.m12 + b.m12,
   a.m20 + b.m20, a.m21 + b.m21, a.m22 + b.m22⟩

/-- Component-wise scalar multiplication of a matrix. -/
def Mat3.smulM (c : ℚ) (m : Mat3) : Mat3 :=
  ⟨c * m.m00, c * m.m01, c * m.m02,
   c * m.m10, c * m.m11, c * m.m12,
   c * m.m20, c * m.m21, c * m.m22⟩

/-- Model of `SpiceManager::AberrationCorrection::Type` (named `CorrType` here because
`Type` is a Lean sort). -/
inductive CorrType where
  | None
  | LightTime
  | LightTimeStellar
  | ConvergedNewtonian
  | ConvergedNewtonianStellar
deriving DecidableEq, Repr

/-- Model of `SpiceManager::AberrationCorrection::Direction`. -/
inductive CorrDirection where
  | Reception
  | Transmission
deriving DecidableEq, Repr

/-- Model of `SpiceManager::AberrationCorrection`. -/
structure AberrationCorrection where
  type : CorrType
  direction : CorrDirection
deriving DecidableEq, Repr

/-- The string constructor `AberrationCorrection(const std::string&)`.
The C++ version asserts that the identifier is one of the nine recognised
codes; the unrecognised case is modelled as `none`. -/
def AberrationCorrection.fromString (identifier : String) :
    Option AberrationCorrection :=
  if identifier = "NONE" then some ⟨.None, .Reception⟩
  else if identifier = "LT" then some ⟨.LightTime, .Reception⟩
  else if identifier = "LT+S" then some ⟨.LightTimeStellar, .Reception⟩
  else if identifier = "CN" then some ⟨.ConvergedNewtonian, .Reception⟩
  else if identifier = "CN+S" then some ⟨.ConvergedNewtonianStellar, .Reception⟩
  else if identifier = "XLT" then some ⟨.LightTime, .Transmission⟩
  else if identifier = "XLT+S" then some ⟨.LightTimeStellar, .Transmission⟩
  else if identifier = "XCN" then some ⟨.ConvergedNewtonian, .Transmission⟩
  else if identifier = "XCN+S" then
    some ⟨.ConvergedNewtonianStellar, .Transmission⟩
  else none

/-- The conversion `AberrationCorrection::operator const char*`. -/
def AberrationCorrection.toCode (ac : AberrationCorrection) : String :=
  match ac.type with
  | .None => "NONE"
  | .LightTime =>
      match ac.direction with
      | .Reception => "LT"
      | .Transmission => "XLT"
  | .LightTimeStellar =>
      match ac.direction with
      | .Reception => "LT+S"
      | .Transmission => "XLT+S"
  | .ConvergedNewtonian =>
      match ac.direction with
      | .Reception => "CN"
      | .Transmission => "XCN"
  | .ConvergedNewtonianStellar =>
      match ac.direction with
      | .Reception => "CN+S"
      | .Transmission => "XCN+S"

/-- The 9 canonical aberration-correction short-codes of the constructor's
mapping table. -/
def canonicalCodes : List String :=
  ["NONE", "LT", "LT+S", "CN", "CN+S", "XLT", "XLT+S", "XCN", "XCN+S"]

/-- Claim C9: for each of the 9 canonical aberration-correction short-codes,
constructing an `AberrationCorrection` from the code string and converting it
back to its string representation reproduces the original code exactly, and
each recognized code maps to exactly one (type, direction) pair — distinct
codes map to distinct pairs, and every code is recognised. -/
theorem aberrationCorrection_roundtrip :
    (∀ c ∈ canonicalCodes,
      (AberrationCorrection.fromString c).map AberrationCorrection.toCode =
        some c) ∧
    (∀ c ∈ canonicalCodes, ∀ d ∈ canonicalCodes, c ≠ d →
      AberrationCorrection.fromString c ≠ AberrationCorrection.fromString d) := by
  decide

/-- Minimum of a list of rationals viewed as a finite set;
models `*(set.begin())` when the set is nonempty. -/
def listMin : List ℚ → Option ℚ
  | [] => none
  | x :: xs => some (xs.foldl min x)

/-- Maximum of a list of rationals viewed as a finite set;
models `*(set.rbegin())` when the set is nonempty. -/
def listMax : List ℚ → Option ℚ
  | [] => none
  | x :: xs => some (xs.foldl max x)

/-- The strict interval test of `hasSpkCoverage` / `hasCkCoverage`:
`(first < et) && (second > et)` for at least one recorded interval. -/
def intervalsCover (et : ℚ) (l : List (ℚ × ℚ)) : Bool :=
  l.any (fun iv => iv.1 < et && et < iv.2)

/-- Model of `std::set<double>::insert`: insert keeping the list sorted and
duplicate-free. -/
def insertTime (t : ℚ) : List ℚ → List ℚ
  | [] => [t]
  | x :: xs =>
      if t < x then t :: x :: xs
      else if t = x then x :: xs
      else x :: insertTime t xs

/-- Model of a `map[key]` access followed by an update: finds the entry for `key`
(default-constructing it from `dflt` if absent) and applies `f` to it. -/
def assocUpdate (key : Int) (dflt : β) (f : β → β) :
    List (Int × β) → List (Int × β)
  | [] => [(key, f dflt)]
  | (k, v) :: rest =>
      if key = k then (k, f v) :: rest
      else (k, v) :: assocUpdate key dflt f rest

/-- One `KernelInformation` record of the registry:
`{ std::string path; KernelHandle id; int refCount; }`. -/
structure KernelInformation where
  path : String
  id : Nat
  refCount : Nat
deriving DecidableEq, Repr

/-- The underlying CSPICE library and filesystem, modelled as an oracle of
pure functions. A `none` result models "the call set the library's internal
failure flag (`failed_c`)"; in that case CSPICE leaves the caller's output
variables untouched. -/
structure SpiceLib where
  /-- `bods2c_c`: body name to (id, success flag). On failure the id output
  is whatever the library wrote (the C++ reads it uninitialised). -/
  bods2c : String → Int × Bool
  /-- `namfrm_c`: frame name to frame id, `0` meaning "not found". -/
  namfrm : String → Int
  /-- `spkpos_c target et frame abcorr observer` giving (position, lightTime). -/
  spkpos : String → ℚ → String → AberrationCorrection → String →
    Option (Vec3 × ℚ)
  /-- `pxform_c fromFrame toFrame et`. -/
  pxform : String → String → ℚ → Option Mat3
  /-- Whether `furnsh_c` succeeds for a given path. -/
  furnshOk : String → Bool
  /-- `spkobj_c` + `spkcov_c`: for a kernel path, the list of
  (body id, coverage windows) pairs the file supplies. -/
  spkobjData : String → List (Int × List (ℚ × ℚ))
  /-- `ckobj_c` + `ckcov_c`: for a kernel path, the list of
  (frame id, coverage windows) pairs the file supplies. -/
  ckobjData : String → List (Int × List (ℚ × ℚ))
  /-- `absPath`: resolution of a path to canonical absolute form. -/
  absPath : String → String

/-- The `SpiceManager` state. Field names follow the C++ members; the last
three fields model the observable state of the underlying library. -/
structure SpiceManager where
  lib : SpiceLib
  _useExceptions : Bool
  _loadedKernels : List KernelInformation
  _lastAssignedKernel : Nat
  _spkIntervals : List (Int × List (ℚ × ℚ))
  _spkCoverageTimes : List (Int × List ℚ)
  _ckIntervals : List (Int × List (ℚ × ℚ))
  _ckCoverageTimes : List (Int × List ℚ)
  /-- The files currently loaded into the underlying library
  (appended by `furnsh_c`, removed by `unload_c`). -/
  spiceLoaded : List String
  /-- Number of `furnsh_c` invocations performed so far. -/
  furnshCount : Nat

/-- Model of `SpiceManager::naifId`: `bods2c_c` passthrough; throws when the lookup
fails and exceptions are enabled, otherwise returns the id output as-is. -/
def SpiceManager.naifId (st : SpiceManager) (body : String) :
    Except String Int :=
  let r := st.lib.bods2c body
  if !r.2 && st._useExceptions then
    Except.error ("Could not find NAIF ID of body " ++ body)
  else
    Except.ok r.1

/-- Model of `SpiceManager::frameId`: `namfrm_c` passthrough; throws when the id is `0`
and exceptions are enabled. -/
def SpiceManager.frameId (st : SpiceManager) (frame : String) :
    Except String Int :=
  let id := st.lib.namfrm frame
  if id = 0 && st._useExceptions then
    Except.error ("Could not find NAIF ID of frame " ++ frame)
  else
    Except.ok id

/-- Model of `SpiceManager::hasSpkCoverage`: id `0` (solar system barycenter) is always
covered; otherwise covered iff the time passes the strict interval test for
some recorded SPK interval of the id. -/
def SpiceManager.hasSpkCoverage (st : SpiceManager) (target : String)
    (et : ℚ) : Except String Bool :=
  match st.naifId target with
  | Except.error e => Except.error e
  | Except.ok id =>
      if id = 0 then Except.ok true
      else
        match st._spkIntervals.lookup id with
        | some intervalVector => Except.ok (intervalsCover et intervalVector)
        | none => Except.ok false

/-- Model of `SpiceManager::spkCoverage`: the recorded interval list of the body id,
or the empty list. -/
def SpiceManager.spkCoverage (st : SpiceManager) (target : String) :
    Except String (List (ℚ × ℚ)) :=
  match st.naifId target with
  | Except.error e => Except.error e
  | Except.ok id =>
      match st._spkIntervals.lookup id with
      | some v => Except.ok v
      | none => Except.ok []

/-- Model of `SpiceManager::hasCkCoverage`: resolves the name through `frameId`
(not `naifId`), then applies the strict interval test; no fallback lookup. -/
def SpiceManager.hasCkCoverage (st : SpiceManager) (frame : String)
    (et : ℚ) : Except String Bool :=
  match st.frameId frame with
  | Except.error e => Except.error e
  | Except.ok id =>
      match st._ckIntervals.lookup id with
      | some intervalVector => Except.ok (intervalsCover et intervalVector)
      | none => Except.ok false

/-- Model of `SpiceManager::ckCoverage`: resolves the name through `naifId`
(not `frameId`); if the id has no CK entry, retries with the id multiplied by
1000; returns the empty list when both lookups fail. -/
def SpiceManager.ckCoverage (st : SpiceManager) (target : String) :
    Except String (List (ℚ × ℚ)) :=
  match st.naifId target with
  | Except.error e => Except.error e
  | Except.ok id =>
      match st._ckIntervals.lookup id with
      | some v => Except.ok v
      | none =>
          match st._ckIntervals.lookup (id * 1000) with
          | some v => Except.ok v
          | none => Except.ok []

/-- Model of `SpiceManager::getEstimatedPosition`. Looks up the target's SPK
boundary-point set: constant extrapolation at the first boundary when the
query time has no boundary below it, constant extrapolation at the last
boundary when it has no boundary above it, and otherwise linear interpolation
of both position and light time between the greatest boundary below and the
least boundary above, with weight `(et - earlier) / (later - earlier)`.
A failed `spkpos_c` call with exceptions disabled leaves the output variables
at their initialised values (`glm::dvec3(0.0)`; the uninitialised light-time
double of the interpolation branch is modelled as `0`). -/
def SpiceManager.getEstimatedPosition (st : SpiceManager)
    (target observer referenceFrame : String) (ac : AberrationCorrection)
    (et lightTime : ℚ) : Except String (Vec3 × ℚ) :=
  match st.naifId target with
  | Except.error e => Except.error e
  | Except.ok targetId =>
      if targetId = 0 then
        -- SOLAR SYSTEM BARYCENTER special case, no definition in kernels
        Except.ok (Vec3.zero, lightTime)
      else
        match st._spkCoverageTimes.lookup targetId with
        | none =>
            if st._useExceptions then
              Except.error ("No position for " ++ target ++ " at any time")
            else
              Except.ok (Vec3.zero, lightTime)
        | some coveredTimes =>
            if (coveredTimes.filter (fun x => x < et)).isEmpty then
              -- lower_bound == begin: coverage later, fetch first position
              match st.lib.spkpos target ((listMin coveredTimes).getD 0)
                  referenceFrame ac observer with
              | some r => Except.ok r
              | none =>
                  if st._useExceptions then
                    Except.error ("Error estimating position for " ++ target)
                  else
                    Except.ok (Vec3.zero, lightTime)
            else if (coveredTimes.filter (fun x => et < x)).isEmpty then
              -- upper_bound == end: coverage earlier, fetch last position
              match st.lib.spkpos target ((listMax coveredTimes).getD 0)
                  referenceFrame ac observer with
              | some r => Except.ok r
              | none =>
                  if st._useExceptions then
                    Except.error ("Error estimating position for " ++ target)
                  else
                    Except.ok (Vec3.zero, lightTime)
            else
              -- coverage both earlier and later, interpolate these positions
              let timeEarlier :=
                (listMax (coveredTimes.filter (fun x => x < et))).getD 0
              let timeLater :=
                (listMin (coveredTimes.filter (fun x => et < x))).getD 0
              let rE := st.lib.spkpos target timeEarlier referenceFrame ac
                observer
              let rL := st.lib.spkpos target timeLater referenceFrame ac
                observer
              match rE, rL with
              | some (posEarlier, ltEarlier), some (posLater, ltLater) =>
                  let t := (et - timeEarlier) / (timeLater - timeEarlier)
                  Except.ok
                    (Vec3.smul (1 - t) posEarlier + Vec3.smul t posLater,
                     ltEarlier * (1 - t) + ltLater * t)
              | _, _ =>
                  if st._useExceptions then
                    Except.error ("Error estimating position for " ++ target)
                  else
                    -- the failed call left its outputs at the initialised
                    -- values; the flag is reset and the blend still runs
                    let pE := (rE.getD (Vec3.zero, 0))
                    let pL := (rL.getD (Vec3.zero, 0))
                    let t := (et - timeEarlier) / (timeLater - timeEarlier)
                    Except.ok
                      (Vec3.smul (1 - t) pE.1 + Vec3.smul t pL.1,
                       pE.2 * (1 - t) + pL.2 * t)

/-- Model of `SpiceManager::getEstimatedTransformMatrix`: the same
bracket/extrapolate/interpolate structure over the CK coverage-time table,
blending the two bracketing `pxform_c` matrices component-wise. Note that
unlike `positionTransformMatrix` this function does not transpose its
result. -/
def SpiceManager.getEstimatedTransformMatrix (st : SpiceManager)
    (fromFrame toFrame : String) (time : ℚ) : Except String Mat3 :=
  match st.frameId fromFrame with
  | Except.error e => Except.error e
  | Except.ok idFrame =>
      match st._ckCoverageTimes.lookup idFrame with
      | none =>
          if st._useExceptions then
            Except.error ("No data available for transform matrix from "
              ++ fromFrame ++ " to " ++ toFrame ++ " at any time")
          else
            Except.ok Mat3.identity
      | some coveredTimes =>
          if (coveredTimes.filter (fun x => x < time)).isEmpty then
            -- coverage later, fetch first transform
            match st.lib.pxform fromFrame toFrame
                ((listMin coveredTimes).getD 0) with
            | some m => Except.ok m
            | none =>
                if st._useExceptions then
                  Except.error ("Error estimating transform matrix from "
                    ++ fromFrame ++ " to " ++ toFrame)
                else
                  Except.ok Mat3.identity
          else if (coveredTimes.filter (fun x => time < x)).isEmpty then
            -- coverage earlier, fetch last transform
            match st.lib.pxform fromFrame toFrame
                ((listMax coveredTimes).getD 0) with
            | some m => Except.ok m
            | none =>
                if st._useExceptions then
                  Except.error ("Error estimating transform matrix from "
                    ++ fromFrame ++ " to " ++ toFrame)
                else
                  Except.ok Mat3.identity
          else
            -- coverage both earlier and later, interpolate
            let earlier :=
              (listMax (coveredTimes.filter (fun x => x < time))).getD 0
            let later :=
              (listMin (coveredTimes.filter (fun x => time < x))).getD 0
            let mE := st.lib.pxform fromFrame toFrame earlier
            let mL := st.lib.pxform fromFrame toFrame later
            if (mE.isNone || mL.isNone) && st._useExceptions then
              Except.error ("Error estimating transform matrix from "
                ++ fromFrame ++ " to " ++ toFrame)
            else
              let earlierTransform := mE.getD Mat3.identity
              let laterTransform := mL.getD Mat3.identity
              let t := (time - earlier) / (later - earlier)
              Except.ok (Mat3.add (Mat3.smulM (1 - t) earlierTransform)
                (Mat3.smulM t laterTransform))

/-- Model of `SpiceManager::targetPosition`: coverage-status dispatch. Neither side
covered: throw (or return zero with exceptions disabled). Both covered: exact
`spkpos_c`. Only the target covered: estimate the observer's position relative
to the target and negate. Only the observer covered: estimate the target's
position relative to the observer. -/
def SpiceManager.targetPosition (st : SpiceManager)
    (target observer referenceFrame : String) (ac : AberrationCorrection)
    (et lightTime : ℚ) : Except String (Vec3 × ℚ) :=
  match st.hasSpkCoverage target et, st.hasSpkCoverage observer et with
  | Except.error e, _ => Except.error e
  | Except.ok _, Except.error e => Except.error e
  | Except.ok targetHasCoverage, Except.ok observerHasCoverage =>
      if !targetHasCoverage && !observerHasCoverage then
        if st._useExceptions then
          Except.error ("Neither target " ++ target ++ " nor observer "
            ++ observer ++ " has SPK coverage")
        else
          Except.ok (Vec3.zero, lightTime)
      else if targetHasCoverage && observerHasCoverage then
        match st.lib.spkpos target et referenceFrame ac observer with
        | some r => Except.ok r
        | none =>
            if st._useExceptions then
              Except.error ("Error getting position from " ++ target
                ++ " to " ++ observer)
            else
              Except.ok (Vec3.zero, lightTime)
      else if targetHasCoverage then
        -- observer has no coverage: estimate it against the target, negate
        match st.getEstimatedPosition observer target referenceFrame ac et
            lightTime with
        | Except.ok r => Except.ok (r.1.neg, r.2)
        | Except.error e => Except.error e
      else
        -- target has no coverage
        st.getEstimatedPosition target observer referenceFrame ac et lightTime

/-- Model of `SpiceManager::positionTransformMatrix` (single-time overload). The
result variable starts as the identity; on `pxform_c` failure
`throwSpiceError("")` either throws (exceptions enabled) or resets the
library's failure flag, after which the subsequent `failed_c()` check reads
`false`, `success` is `true`, and the estimator branch is skipped — so the
untouched identity is transposed and returned. -/
def SpiceManager.positionTransformMatrix (st : SpiceManager)
    (sourceFrame destinationFrame : String) (et : ℚ) : Except String Mat3 :=
  match st.lib.pxform sourceFrame destinationFrame et with
  | some m => Except.ok (Mat3.transpose m)
  | none =>
      if st._useExceptions then
        Except.error ""
      else
        Except.ok (Mat3.transpose Mat3.identity)

/-- The `it->refCount++` update on the first registry record with the given path. -/
def incRefCount (path : String) : List KernelInformation →
    List KernelInformation
  | [] => []
  | k :: rest =>
      if k.path = path then { k with refCount := k.refCount + 1 } :: rest
      else k :: incRefCount path rest

/-- The `_loadedKernels.erase(it)` removal of the first record with the given handle. -/
def eraseFirstById (kernelId : Nat) : List KernelInformation →
    List KernelInformation
  | [] => []
  | k :: rest => if k.id = kernelId then rest else k :: eraseFirstById kernelId rest

/-- The `it->refCount--` update on the first registry record with the given handle. -/
def decRefById (kernelId : Nat) : List KernelInformation →
    List KernelInformation
  | [] => []
  | k :: rest =>
      if k.id = kernelId then { k with refCount := k.refCount - 1 } :: rest
      else k :: decRefById kernelId rest

/-- The `_loadedKernels.erase(it)` removal of the first record with the given path. -/
def eraseFirstByPath (path : String) : List KernelInformation →
    List KernelInformation
  | [] => []
  | k :: rest =>
      if k.path = path then rest else k :: eraseFirstByPath path rest

/-- The `it->refCount--` update on the first registry record with the given path. -/
def decRefByPath (path : String) : List KernelInformation →
    List KernelInformation
  | [] => []
  | k :: rest =>
      if k.path = path then { k with refCount := k.refCount - 1 } :: rest
      else k :: decRefByPath path rest

/-- The loops of `findSpkCoverage` / `findCkCoverage`: for each object the
file defines and each of its coverage windows `(b, e)`, insert both endpoints
into that id's boundary-point set and append the interval to its interval
vector. -/
def indexCoverage (data : List (Int × List (ℚ × ℚ)))
    (tbls : List (Int × List ℚ) × List (Int × List (ℚ × ℚ))) :
    List (Int × List ℚ) × List (Int × List (ℚ × ℚ)) :=
  data.foldl
    (fun acc entry =>
      entry.2.foldl
        (fun a w =>
          (assocUpdate entry.1 [] (fun ts => insertTime w.1 (insertTime w.2 ts))
             a.1,
           assocUpdate entry.1 [] (fun ivs => ivs ++ [w]) a.2))
        acc)
    tbls

/-- The characters from the last `.` (inclusive) of a character list, or
`none` when it holds no dot. -/
def extensionAux : List Char → Option (List Char)
  | [] => none
  | '.' :: rest =>
      match extensionAux rest with
      | some e => some e
      | none => some ('.' :: rest)
  | _ :: rest => extensionAux rest

/-- Model of `std::filesystem::path::extension()`: the suffix of the file name
starting at the last dot, or the empty string when there is none. -/
def extensionOf (path : String) : String :=
  match extensionAux path.data with
  | some e => String.mk e
  | none => ""

/-- The extension test for binary CK kernels (`.bc` / `.BC`). -/
def isCkExtension (path : String) : Bool :=
  extensionOf path = ".bc" || extensionOf path = ".BC"

/-- The extension test for binary SPK kernels (`.bsp` / `.BSP`). -/
def isSpkExtension (path : String) : Bool :=
  extensionOf path = ".bsp" || extensionOf path = ".BSP"

/-- The extension dispatch of `loadKernel` onto `findCkCoverage` /
`findSpkCoverage`; only the two coverage tables of the matching type are
modified. -/
def indexKernelCoverage (st : SpiceManager) (path : String) : SpiceManager :=
  if isCkExtension path then
    let tbl := indexCoverage (st.lib.ckobjData path)
      (st._ckCoverageTimes, st._ckIntervals)
    { st with _ckCoverageTimes := tbl.1, _ckIntervals := tbl.2 }
  else if isSpkExtension path then
    let tbl := indexCoverage (st.lib.spkobjData path)
      (st._spkCoverageTimes, st._spkIntervals)
    { st with _spkCoverageTimes := tbl.1, _spkIntervals := tbl.2 }
  else st

/-- Model of `SpiceManager::loadKernel`. Resolves the path to canonical form; if a
record with that path exists, increments its reference count and returns its
handle without touching the underlying library. Otherwise invokes `furnsh_c`
(counted by `furnshCount`); on failure `throwSpiceError` throws when
exceptions are enabled, while with exceptions disabled execution continues:
coverage is still indexed and a fresh record with reference count 1 is still
appended, consuming a new handle. -/
def SpiceManager.loadKernel (st : SpiceManager) (filePath : String) :
    SpiceManager × Except String Nat :=
  let path := st.lib.absPath filePath
  match st._loadedKernels.find? (fun info => info.path = path) with
  | some info =>
      ({ st with _loadedKernels := incRefCount path st._loadedKernels },
       Except.ok info.id)
  | none =>
      if st.lib.furnshOk path then
        let st1 := { st with furnshCount := st.furnshCount + 1,
                             spiceLoaded := st.spiceLoaded ++ [path] }
        let st2 := indexKernelCoverage st1 path
        let kernelId := st2._lastAssignedKernel + 1
        ({ st2 with _lastAssignedKernel := kernelId,
                    _loadedKernels :=
                      st2._loadedKernels ++ [⟨path, kernelId, 1⟩] },
         Except.ok kernelId)
      else
        let st1 := { st with furnshCount := st.furnshCount + 1 }
        if st._useExceptions then
          (st1, Except.error "Kernel loading")
        else
          let st2 := indexKernelCoverage st1 path
          let kernelId := st2._lastAssignedKernel + 1
          ({ st2 with _lastAssignedKernel := kernelId,
                      _loadedKernels :=
                        st2._loadedKernels ++ [⟨path, kernelId, 1⟩] },
           Except.ok kernelId)

/-- Model of `SpiceManager::unloadKernel(KernelHandle)`. A handle with no record is a
no-op; a record with reference count 1 is erased and the file unloaded from
the underlying library; otherwise only the reference count is decremented. -/
def SpiceManager.unloadKernelById (st : SpiceManager) (kernelId : Nat) :
    SpiceManager :=
  match st._loadedKernels.find? (fun info => info.id = kernelId) with
  | none => st
  | some info =>
      if info.refCount = 1 then
        { st with _loadedKernels := eraseFirstById kernelId st._loadedKernels,
                  spiceLoaded := st.spiceLoaded.erase info.path }
      else
        { st with _loadedKernels := decRefById kernelId st._loadedKernels }

/-- Model of `SpiceManager::unloadKernel(std::string)`. An unknown path throws when
exceptions are enabled and is a no-op otherwise; a record with reference
count 1 is erased and the file unloaded from the underlying library;
otherwise only the reference count is decremented. -/
def SpiceManager.unloadKernelByPath (st : SpiceManager) (filePath : String) :
    SpiceManager × Except String Unit :=
  let path := st.lib.absPath filePath
  match st._loadedKernels.find? (fun info => info.path = path) with
  | none =>
      if st._useExceptions then
        (st, Except.error (path ++ " did not correspond to a loaded kernel"))
      else
        (st, Except.ok ())
  | some info =>
      if info.refCount = 1 then
        ({ st with
             _loadedKernels := eraseFirstByPath path st._loadedKernels,
             spiceLoaded := st.spiceLoaded.erase path },
         Except.ok ())
      else
        ({ st with _loadedKernels := decRefByPath path st._loadedKernels },
         Except.ok ())

/-- Model of `SpiceManager::loadedKernels`: the registry's paths in iteration order. -/
def SpiceManager.loadedKernels (st : SpiceManager) : List String :=
  st._loadedKernels.map (fun info => info.path)

/-- Characterisation of `hasSpkCoverage` for a nonzero id with a recorded
interval list: exactly the strict any-interval test. -/
theorem hasSpkCoverage_eq (st : SpiceManager) (target : String) (id : Int)
    (l : List (ℚ × ℚ)) (t : ℚ) (hid : st.naifId target = Except.ok id)
    (h0 : id ≠ 0) (hlk : st._spkIntervals.lookup id = some l) :
    st.hasSpkCoverage target t = Except.ok (intervalsCover t l) := by
  unfold SpiceManager.hasSpkCoverage
  rw [hid]
  simp [h0, hlk]

/-- Claim C6: for a body whose SPK interval table contains exactly the
interval [100, 200], `hasSpkCoverage` is true strictly inside (100, 200) and
false at t = 50 and t = 250; in general a time is covered iff it lies strictly
inside at least one recorded interval for that id, an absent id is uncovered,
and the solar-system-barycenter id 0 is always covered. -/
theorem hasSpkCoverage_round_trip (st : SpiceManager) (X : String) (id : Int)
    (hid : st.naifId X = Except.ok id) (h0 : id ≠ 0)
    (hlk : st._spkIntervals.lookup id = some [(100, 200)]) :
    (∀ t : ℚ, 100 < t → t < 200 → st.hasSpkCoverage X t = Except.ok true) ∧
    st.hasSpkCoverage X 50 = Except.ok false ∧
    st.hasSpkCoverage X 250 = Except.ok false ∧
    (∀ (st' : SpiceManager) (Y : String) (id' : Int) (l : List (ℚ × ℚ))
       (t : ℚ),
      st'.naifId Y = Except.ok id' → id' ≠ 0 →
      st'._spkIntervals.lookup id' = some l →
      st'.hasSpkCoverage Y t = Except.ok (intervalsCover t l)) ∧
    (∀ (st' : SpiceManager) (Y : String) (id' : Int) (t : ℚ),
      st'.naifId Y = Except.ok id' → id' ≠ 0 →
      st'._spkIntervals.lookup id' = none →
      st'.hasSpkCoverage Y t = Except.ok false) ∧
    (∀ (st' : SpiceManager) (Y : String) (t : ℚ),
      st'.naifId Y = Except.ok 0 → st'.hasSpkCoverage Y t = Except.ok true) := by
  refine ⟨?_, ?_, ?_, ?_, ?_, ?_⟩
  · intro t h1 h2
    rw [hasSpkCoverage_eq st X id _ t hid h0 hlk]
    simp [intervalsCover, h1, h2]
  · rw [hasSpkCoverage_eq st X id _ 50 hid h0 hlk]
    norm_num [intervalsCover]
  · rw [hasSpkCoverage_eq st X id _ 250 hid h0 hlk]
    norm_num [intervalsCover]
  · intro st' Y id' l t hid' h0' hlk'
    exact hasSpkCoverage_eq st' Y id' l t hid' h0' hlk'
  · intro st' Y id' t hid' h0' hlk'
    unfold SpiceManager.hasSpkCoverage
    rw [hid']
    simp [h0', hlk']
  · intro st' Y t hid'
    unfold SpiceManager.hasSpkCoverage
    rw [hid']
    simp

/-- A minimal oracle used by the concrete example states: body "X" resolves
to id 5, everything else fails to resolve; no frame resolves; all
computation primitives fail; all loads succeed; files carry no coverage. -/
def trivialLib : SpiceLib where
  bods2c := fun s => if s = "X" then (5, true) else (0, false)
  namfrm := fun _ => 0
  spkpos := fun _ _ _ _ _ => none
  pxform := fun _ _ _ => none
  furnshOk := fun _ => true
  spkobjData := fun _ => []
  ckobjData := fun _ => []
  absPath := fun s => s

/-- Example state: body "X" (id 5) has the single recorded SPK interval
(100, 200) with boundary points {100, 200}. -/
def ex5 : SpiceManager where
  lib := trivialLib
  _useExceptions := true
  _loadedKernels := []
  _lastAssignedKernel := 0
  _spkIntervals := [(5, [(100, 200)])]
  _spkCoverageTimes := [(5, [100, 200])]
  _ckIntervals := []
  _ckCoverageTimes := []
  spiceLoaded := []
  furnshCount := 0

/-- Counterexample to claim C5: body "X" has the recorded SPK interval
(100, 200), yet at the interval's exact lower bound t = 100 `hasSpkCoverage`
reports NOT covered — the interval test is strict on both bounds. -/
theorem hasSpkCoverage_lower_bound_cex :
    ex5._spkIntervals.lookup 5 = some [(100, 200)] ∧
    ex5.naifId "X" = Except.ok 5 ∧
    ex5.hasSpkCoverage "X" 100 = Except.ok false := by
  refine ⟨rfl, rfl, rfl⟩

/-- Claim C5 (amended): for every body id ≠ 0 whose SPK interval table holds
exactly the interval (b, e) and query time t = b, `hasSpkCoverage` reports
the time as NOT covered: boundary-equal times fail the strict `<`/`>`
interval test. -/
theorem hasSpkCoverage_lower_bound_uncovered (st : SpiceManager) (X : String)
    (id : Int) (b e : ℚ) (hid : st.naifId X = Except.ok id) (h0 : id ≠ 0)
    (hlk : st._spkIntervals.lookup id = some [(b, e)]) :
    st.hasSpkCoverage X b = Except.ok false := by
  rw [hasSpkCoverage_eq st X id _ b hid h0 hlk]
  simp [intervalsCover]

/-- Witness for `hasSpkCoverage_lower_bound_uncovered` at the concrete state
`ex5`, body "X", interval (100, 200), query time 100. -/
theorem hasSpkCoverage_lower_bound_uncovered_witness :
    ex5.hasSpkCoverage "X" 100 = Except.ok false :=
  hasSpkCoverage_lower_bound_uncovered ex5 "X" 5 100 200 rfl (by decide) rfl

/-- Witness for `hasSpkCoverage_round_trip` at the concrete state `ex5`:
covered at 150, uncovered at 50 and 250. -/
theorem hasSpkCoverage_round_trip_witness :
    ex5.hasSpkCoverage "X" 150 = Except.ok true ∧
    ex5.hasSpkCoverage "X" 50 = Except.ok false ∧
    ex5.hasSpkCoverage "X" 250 = Except.ok false := by
  have h := hasSpkCoverage_round_trip ex5 "X" 5 rfl (by decide) rfl
  exact ⟨h.1 150 (by norm_num) (by norm_num), h.2.1, h.2.2.1⟩

/-- Claim C8: unloading a kernel — by handle or by path — leaves all four
coverage tables (SPK and CK interval maps and boundary-point sets) completely
unchanged, including when the reference count reaches zero and the record is
removed. -/
theorem unloadKernel_preserves_coverage (st : SpiceManager) (kernelId : Nat)
    (filePath : String) :
    ((st.unloadKernelById kernelId)._spkIntervals = st._spkIntervals ∧
     (st.unloadKernelById kernelId)._spkCoverageTimes = st._spkCoverageTimes ∧
     (st.unloadKernelById kernelId)._ckIntervals = st._ckIntervals ∧
     (st.unloadKernelById kernelId)._ckCoverageTimes = st._ckCoverageTimes) ∧
    ((st.unloadKernelByPath filePath).1._spkIntervals = st._spkIntervals ∧
     (st.unloadKernelByPath filePath).1._spkCoverageTimes =
       st._spkCoverageTimes ∧
     (st.unloadKernelByPath filePath).1._ckIntervals = st._ckIntervals ∧
     (st.unloadKernelByPath filePath).1._ckCoverageTimes =
       st._ckCoverageTimes) := by
  constructor
  · unfold SpiceManager.unloadKernelById
    split
    · exact ⟨rfl, rfl, rfl, rfl⟩
    · split <;> exact ⟨rfl, rfl, rfl, rfl⟩
  · unfold SpiceManager.unloadKernelByPath
    dsimp only
    split
    · split <;> exact ⟨rfl, rfl, rfl, rfl⟩
    · split <;> exact ⟨rfl, rfl, rfl, rfl⟩

/-- Claim C10: `ckCoverage` resolves the target through the body-id lookup
(`naifId`), retries with the id multiplied by 1000 when the id has no CK
entry, and returns the empty list only when both lookups fail; whereas
`hasCkCoverage` resolves through `frameId` and performs no multiplied-id
fallback — an absent frame id yields `false` outright. -/
theorem ckCoverage_naifId_with_fallback (st : SpiceManager) (target : String)
    (id : Int) (hid : st.naifId target = Except.ok id) :
    (∀ v, st._ckIntervals.lookup id = some v →
      st.ckCoverage target = Except.ok v) ∧
    (st._ckIntervals.lookup id = none →
      ∀ v, st._ckIntervals.lookup (id * 1000) = some v →
        st.ckCoverage target = Except.ok v) ∧
    (st._ckIntervals.lookup id = none →
      st._ckIntervals.lookup (id * 1000) = none →
      st.ckCoverage target = Except.ok []) ∧
    (∀ (fid : Int) (t : ℚ), st.frameId target = Except.ok fid →
      st._ckIntervals.lookup fid = none →
      st.hasCkCoverage target t = Except.ok false) ∧
    (∀ (fid : Int) (t : ℚ) (l : List (ℚ × ℚ)),
      st.frameId target = Except.ok fid →
      st._ckIntervals.lookup fid = some l →
      st.hasCkCoverage target t = Except.ok (intervalsCover t l)) := by
  refine ⟨?_, ?_, ?_, ?_, ?_⟩
  · intro v hv
    unfold SpiceManager.ckCoverage
    rw [hid]
    simp [hv]
  · intro h1 v hv
    unfold SpiceManager.ckCoverage
    rw [hid]
    simp [h1, hv]
  · intro h1 h2
    unfold SpiceManager.ckCoverage
    rw [hid]
    simp [h1, h2]
  · intro fid t hfid hnone
    unfold SpiceManager.hasCkCoverage
    rw [hfid]
    simp [hnone]
  · intro fid t l hfid hl
    unfold SpiceManager.hasCkCoverage
    rw [hfid]
    simp [hl]

/-- Example state for the CK lookup distinction: the body name "CRAFT"
resolves to body id -82 but to frame id 999; the CK table has an entry only
under the multiplied id -82000. -/
def ex10 : SpiceManager where
  lib := { trivialLib with
    bods2c := fun s => if s = "CRAFT" then (-82, true) else (0, false)
    namfrm := fun s => if s = "CRAFT" then 999 else 0 }
  _useExceptions := true
  _loadedKernels := []
  _lastAssignedKernel := 0
  _spkIntervals := []
  _spkCoverageTimes := []
  _ckIntervals := [(-82000, [(0, 10)])]
  _ckCoverageTimes := [(-82000, [0, 10])]
  spiceLoaded := []
  furnshCount := 0

/-- Witness for `ckCoverage_naifId_with_fallback` at the concrete state
`ex10`: `ckCoverage` finds the intervals through the multiplied-id fallback
while `hasCkCoverage` (frame id 999, no entry) reports false. -/
theorem ckCoverage_naifId_with_fallback_witness :
    ex10.ckCoverage "CRAFT" = Except.ok [(0, 10)] ∧
    ex10.hasCkCoverage "CRAFT" 5 = Except.ok false := by
  have h := ckCoverage_naifId_with_fallback ex10 "CRAFT" (-82) rfl
  exact ⟨h.2.1 rfl [(0, 10)] rfl, h.2.2.2.1 999 5 rfl rfl⟩

/-- Claim C2: when exactly one of the two bodies has SPK coverage at the
query time, `targetPosition` is antisymmetric: swapping target and observer
negates the returned position (and produces the same light time), because the
estimation path always estimates the uncovered side relative to the covered
side and negates when the roles were swapped. -/
theorem targetPosition_antisymmetric (st : SpiceManager) (A B F : String)
    (ac : AberrationCorrection) (t lt0 : ℚ) (ca cb : Bool)
    (hA : st.hasSpkCoverage A t = Except.ok ca)
    (hB : st.hasSpkCoverage B t = Except.ok cb) (hne : ca ≠ cb) :
    st.targetPosition A B F ac t lt0 =
      Except.map (fun r => (Vec3.neg r.1, r.2))
        (st.targetPosition B A F ac t lt0) := by
  unfold SpiceManager.targetPosition
  rw [hA, hB]
  cases ca <;> cases cb
  · exact absurd rfl hne
  · -- only B covered: both sides evaluate the estimate of A against B
    cases hE : st.getEstimatedPosition A B F ac t lt0 <;>
      simp [hE, Except.map, Vec3.neg_neg]
  · -- only A covered: both sides evaluate the estimate of B against A
    cases hE : st.getEstimatedPosition B A F ac t lt0 <;>
      simp [hE, Except.map]
  · exact absurd rfl hne

/-- Example state for the antisymmetry witness: body "A" (id 1) is covered at
t = 5 by the interval (0, 10); body "B" (id 2) has no coverage entry. The
`spkpos` oracle returns a fixed position for boundary queries. -/
def ex2 : SpiceManager where
  lib := { trivialLib with
    bods2c := fun s => if s = "A" then (1, true)
      else if s = "B" then (2, true) else (0, false)
    spkpos := fun _ _ _ _ _ => some (⟨3, 4, 5⟩, 7) }
  _useExceptions := true
  _loadedKernels := []
  _lastAssignedKernel := 0
  _spkIntervals := [(1, [(0, 10)])]
  _spkCoverageTimes := [(1, [0, 10])]
  _ckIntervals := []
  _ckCoverageTimes := []
  spiceLoaded := []
  furnshCount := 0

/-- Witness for `targetPosition_antisymmetric` at the concrete state `ex2`
with target "A", observer "B", time 5 (only "A" covered). -/
theorem targetPosition_antisymmetric_witness :
    ex2.targetPosition "A" "B" "J2000" ⟨CorrType.None, CorrDirection.Reception⟩
        5 0 =
      Except.map (fun r => (Vec3.neg r.1, r.2))
        (ex2.targetPosition "B" "A" "J2000"
          ⟨CorrType.None, CorrDirection.Reception⟩ 5 0) :=
  targetPosition_antisymmetric ex2 "A" "B" "J2000"
    ⟨CorrType.None, CorrDirection.Reception⟩ 5 0 true false rfl rfl
    (by decide)

instance [DecidableEq ε] [DecidableEq α] : DecidableEq (Except ε α) :=
  fun x y =>
    match x, y with
    | Except.ok a, Except.ok b =>
        if h : a = b then Decidable.isTrue (by rw [h])
        else Decidable.isFalse (fun hh => h (Except.ok.inj hh))
    | Except.error a, Except.error b =>
        if h : a = b then Decidable.isTrue (by rw [h])
        else Decidable.isFalse (fun hh => h (Except.error.inj hh))
    | Except.ok _, Except.error _ =>
        Decidable.isFalse (fun hh => Except.noConfusion hh)
    | Except.error _, Except.ok _ =>
        Decidable.isFalse (fun hh => Except.noConfusion hh)

/-- A list whose set-maximum exists is nonempty. -/
theorem listMax_isEmpty_false (l : List ℚ) (b : ℚ) (h : listMax l = some b) :
    l.isEmpty = false := by
  cases l
  · simp [listMax] at h
  · rfl

/-- A list whose set-minimum exists is nonempty. -/
theorem listMin_isEmpty_false (l : List ℚ) (a : ℚ) (h : listMin l = some a) :
    l.isEmpty = false := by
  cases l
  · simp [listMin] at h
  · rfl

/-- First branch of `getEstimatedPosition`: no boundary point lies below the
query time, so the position is fetched at the set's first element and
returned unchanged. -/
theorem getEstimatedPosition_first (st : SpiceManager)
    (target observer F : String) (ac : AberrationCorrection) (et lt0 : ℚ)
    (id : Int) (l : List ℚ) (r : Vec3 × ℚ)
    (hid : st.naifId target = Except.ok id) (h0 : id ≠ 0)
    (hcov : st._spkCoverageTimes.lookup id = some l)
    (hbelow : (l.filter (fun x => x < et)).isEmpty = true)
    (hpos : st.lib.spkpos target ((listMin l).getD 0) F ac observer = some r) :
    st.getEstimatedPosition target observer F ac et lt0 = Except.ok r := by
  unfold SpiceManager.getEstimatedPosition
  rw [hid]
  simp [h0, hcov, hbelow, hpos]

/-- Second branch of `getEstimatedPosition`: no boundary point lies above the
query time, so the position is fetched at the set's last element and returned
unchanged. -/
theorem getEstimatedPosition_last (st : SpiceManager)
    (target observer F : String) (ac : AberrationCorrection) (et lt0 : ℚ)
    (id : Int) (l : List ℚ) (r : Vec3 × ℚ)
    (hid : st.naifId target = Except.ok id) (h0 : id ≠ 0)
    (hcov : st._spkCoverageTimes.lookup id = some l)
    (hbelow : (l.filter (fun x => x < et)).isEmpty = false)
    (habove : (l.filter (fun x => et < x)).isEmpty = true)
    (hpos : st.lib.spkpos target ((listMax l).getD 0) F ac observer = some r) :
    st.getEstimatedPosition target observer F ac et lt0 = Except.ok r := by
  unfold SpiceManager.getEstimatedPosition
  rw [hid]
  simp [h0, hcov, hbelow, habove, hpos]

/-- Interpolation branch of `getEstimatedPosition`: boundary points exist on
both sides of the query time; the bracketing boundaries are the greatest
below and the least above, and position and light time are blended with
weight `(et - b) / (a - b)`. -/
theorem getEstimatedPosition_interp (st : SpiceManager)
    (target observer F : String) (ac : AberrationCorrection) (et lt0 : ℚ)
    (id : Int) (l : List ℚ) (b a : ℚ) (pb pa : Vec3) (lb la : ℚ)
    (hid : st.naifId target = Except.ok id) (h0 : id ≠ 0)
    (hcov : st._spkCoverageTimes.lookup id = some l)
    (hb : listMax (l.filter (fun x => x < et)) = some b)
    (ha : listMin (l.filter (fun x => et < x)) = some a)
    (hE : st.lib.spkpos target b F ac observer = some (pb, lb))
    (hL : st.lib.spkpos target a F ac observer = some (pa, la)) :
    st.getEstimatedPosition target observer F ac et lt0 =
      Except.ok
        (Vec3.smul (1 - (et - b) / (a - b)) pb +
           Vec3.smul ((et - b) / (a - b)) pa,
         lb * (1 - (et - b) / (a - b)) + la * ((et - b) / (a - b))) := by
  unfold SpiceManager.getEstimatedPosition
  rw [hid]
  simp [h0, hcov, listMax_isEmpty_false _ _ hb, listMin_isEmpty_false _ _ ha,
    hb, ha, hE, hL]

/-- Claim C1: for a target whose SPK boundary-point set is exactly
{100, 200}, `getEstimatedPosition` at t = 50 returns the exact position
computed at t = 100, at t = 250 the exact position computed at t = 200, and
at t = 150 the component-wise linear blend of the exact positions at 100 and
200 with weight 1/2 (light time blended with the same weight); in general,
for a time with boundary points strictly below and strictly above, the
bracketing boundaries (greatest below, least above) are used with weight
`(time - before) / (after - before)`. -/
theorem getEstimatedPosition_boundary_law (st : SpiceManager)
    (target observer F : String) (ac : AberrationCorrection) (lt0 : ℚ)
    (id : Int) (p100 p200 : Vec3) (l100 l200 : ℚ)
    (hid : st.naifId target = Except.ok id) (h0 : id ≠ 0)
    (hcov : st._spkCoverageTimes.lookup id = some [100, 200])
    (h100 : st.lib.spkpos target 100 F ac observer = some (p100, l100))
    (h200 : st.lib.spkpos target 200 F ac observer = some (p200, l200)) :
    st.getEstimatedPosition target observer F ac 50 lt0 =
      Except.ok (p100, l100) ∧
    st.getEstimatedPosition target observer F ac 250 lt0 =
      Except.ok (p200, l200) ∧
    st.getEstimatedPosition target observer F ac 150 lt0 =
      Except.ok (Vec3.smul (1/2) p100 + Vec3.smul (1/2) p200,
        l100 * (1/2) + l200 * (1/2)) ∧
    (∀ (st' : SpiceManager) (target' observer' F' : String)
       (ac' : AberrationCorrection) (lt0' t b a : ℚ) (id' : Int)
       (l : List ℚ) (pb pa : Vec3) (lb la : ℚ),
      st'.naifId target' = Except.ok id' → id' ≠ 0 →
      st'._spkCoverageTimes.lookup id' = some l →
      listMax (l.filter (fun x => x < t)) = some b →
      listMin (l.filter (fun x => t < x)) = some a →
      st'.lib.spkpos target' b F' ac' observer' = some (pb, lb) →
      st'.lib.spkpos target' a F' ac' observer' = some (pa, la) →
      st'.getEstimatedPosition target' observer' F' ac' t lt0' =
        Except.ok
          (Vec3.smul (1 - (t - b) / (a - b)) pb +
             Vec3.smul ((t - b) / (a - b)) pa,
           lb * (1 - (t - b) / (a - b)) + la * ((t - b) / (a - b)))) := by
  refine ⟨?_, ?_, ?_, ?_⟩
  · exact getEstimatedPosition_first st target observer F ac 50 lt0 id
      [100, 200] (p100, l100) hid h0 hcov (by decide)
      (by rw [show ((listMin [(100 : ℚ), 200]).getD 0) = 100 from by decide]
          exact h100)
  · exact getEstimatedPosition_last st target observer F ac 250 lt0 id
      [100, 200] (p200, l200) hid h0 hcov (by decide) (by decide)
      (by rw [show ((listMax [(100 : ℚ), 200]).getD 0) = 200 from by decide]
          exact h200)
  · have hc := getEstimatedPosition_interp st target observer F ac 150 lt0 id
      [100, 200] 100 200 p100 p200 l100 l200 hid h0 hcov (by decide)
      (by decide) h100 h200
    rw [hc]
    norm_num
  · intro st' target' observer' F' ac' lt0' t b a id' l pb pa lb la hid' h0'
      hcov' hb ha hE hL
    exact getEstimatedPosition_interp st' target' observer' F' ac' t lt0' id'
      l b a pb pa lb la hid' h0' hcov' hb ha hE hL

/-- Example state for the estimation boundary law: body "TGT" (id 7) has SPK
boundary points {100, 200}; the `spkpos` oracle returns (1,2,3) with light
time 10 at t = 100 and (5,6,7) with light time 30 at t = 200, and fails at
every other time. -/
def ex1 : SpiceManager where
  lib := { trivialLib with
    bods2c := fun s => if s = "TGT" then (7, true) else (0, false)
    spkpos := fun _ t _ _ _ =>
      if t = 100 then some (⟨1, 2, 3⟩, 10)
      else if t = 200 then some (⟨5, 6, 7⟩, 30)
      else none }
  _useExceptions := true
  _loadedKernels := []
  _lastAssignedKernel := 0
  _spkIntervals := [(7, [(100, 200)])]
  _spkCoverageTimes := [(7, [100, 200])]
  _ckIntervals := []
  _ckCoverageTimes := []
  spiceLoaded := []
  furnshCount := 0

/-- Witness for `getEstimatedPosition_boundary_law` at the concrete state
`ex1`: constant extrapolation at 50 and 250, exact midpoint blend at 150. -/
theorem getEstimatedPosition_boundary_law_witness :
    ex1.getEstimatedPosition "TGT" "OBS" "J2000"
        ⟨CorrType.None, CorrDirection.Reception⟩ 50 0 =
      Except.ok (⟨1, 2, 3⟩, 10) ∧
    ex1.getEstimatedPosition "TGT" "OBS" "J2000"
        ⟨CorrType.None, CorrDirection.Reception⟩ 250 0 =
      Except.ok (⟨5, 6, 7⟩, 30) ∧
    ex1.getEstimatedPosition "TGT" "OBS" "J2000"
        ⟨CorrType.None, CorrDirection.Reception⟩ 150 0 =
      Except.ok (⟨3, 4, 5⟩, 20) := by
  have h := getEstimatedPosition_boundary_law ex1 "TGT" "OBS" "J2000"
    ⟨CorrType.None, CorrDirection.Reception⟩ 0 7 ⟨1, 2, 3⟩ ⟨5, 6, 7⟩ 10 30
    rfl (by decide) rfl (by decide) (by decide)
  refine ⟨h.1, h.2.1, ?_⟩
  have e1 : Vec3.smul (1/2 : ℚ) ⟨1, 2, 3⟩ + Vec3.smul (1/2 : ℚ) ⟨5, 6, 7⟩ =
      ({ x := 3, y := 4, z := 5 } : Vec3) := by
    show Vec3.add (Vec3.smul _ _) (Vec3.smul _ _) = _
    norm_num [Vec3.add, Vec3.smul]
  have e2 : (10 : ℚ) * (1/2) + 30 * (1/2) = 20 := by norm_num
  rw [h.2.2.1, e1, e2]

/-- A non-identity rotation-like matrix used by the transform examples. -/
def exM : Mat3 := ⟨0, 1, 0, 0, 0, 1, 1, 0, 0⟩

/-- Example state for `positionTransformMatrix`: frame "FA" has frame id 42
with CK boundary-point set {0}; `pxform_c` succeeds only at time 0 (returning
`exM`) and fails at every other time; exceptions disabled. -/
def ex3 : SpiceManager where
  lib := { trivialLib with
    namfrm := fun s => if s = "FA" then 42 else 0
    pxform := fun f t time =>
      if f = "FA" ∧ t = "FB" ∧ time = 0 then some exM else none }
  _useExceptions := false
  _loadedKernels := []
  _lastAssignedKernel := 0
  _spkIntervals := []
  _spkCoverageTimes := []
  _ckIntervals := [(42, [(0, 0)])]
  _ckCoverageTimes := [(42, [0])]
  spiceLoaded := []
  furnshCount := 0

/-- The same state with exceptions enabled. -/
def ex3e : SpiceManager := { ex3 with _useExceptions := true }

/-- Claim C3 evaluated at a failing input: at time 7 the exact `pxform_c`
fails, the Estimator has data (it would return `exM`), yet
`positionTransformMatrix` with exceptions disabled returns the transposed
untouched identity — not the Estimator's matrix — and with exceptions
enabled it raises instead of falling back. The estimator branch is dead
because `throwSpiceError` either throws or resets the failure flag before
the `success` check reads it. -/
theorem positionTransformMatrix_dead_fallback :
    ex3.lib.pxform "FA" "FB" 7 = none ∧
    ex3.positionTransformMatrix "FA" "FB" 7 = Except.ok Mat3.identity ∧
    ex3.getEstimatedTransformMatrix "FA" "FB" 7 = Except.ok exM ∧
    exM ≠ Mat3.identity ∧
    ex3e.positionTransformMatrix "FA" "FB" 7 = Except.error "" := by
  refine ⟨?_, rfl, ?_, by decide, rfl⟩
  · show (if ("FA" = "FA" ∧ "FB" = "FB" ∧ (7 : ℚ) = 0) then some exM
      else none) = none
    norm_num
  · show ex3.getEstimatedTransformMatrix "FA" "FB" 7 = Except.ok exM
    unfold SpiceManager.getEstimatedTransformMatrix
    norm_num [SpiceManager.frameId, ex3, trivialLib, listMax]

/-- Example state for the rejected-load counterexample: every `furnsh_c`
call fails; exceptions disabled; registry initially empty. -/
def ex4 : SpiceManager where
  lib := { trivialLib with furnshOk := fun _ => false }
  _useExceptions := false
  _loadedKernels := []
  _lastAssignedKernel := 0
  _spkIntervals := []
  _spkCoverageTimes := []
  _ckIntervals := []
  _ckCoverageTimes := []
  spiceLoaded := []
  furnshCount := 0

/-- The same state with exceptions enabled. -/
def ex4e : SpiceManager := { ex4 with _useExceptions := true }

/-- Counterexample to claim C4: with exceptions disabled, a load whose
`furnsh_c` fails still creates a kernel record — the failure is swallowed by
`throwSpiceError`, execution continues, and a fresh record with a fresh
handle is appended, so `loadedKernels()` differs before and after. -/
theorem loadKernel_rejected_creates_record_cex :
    ex4.lib.furnshOk "k.bsp" = false ∧
    ex4._useExceptions = false ∧
    ex4.loadedKernels = [] ∧
    ((ex4.loadKernel "k.bsp").1).loadedKernels = ["k.bsp"] ∧
    ((ex4.loadKernel "k.bsp").1)._lastAssignedKernel = 1 := by
  exact ⟨rfl, rfl, rfl, rfl, rfl⟩

/-- Searching the registry with `find?` returns `none` when no record has the path. -/
theorem find?_path_none (p : String) (l : List KernelInformation)
    (h : ∀ k ∈ l, k.path ≠ p) :
    l.find? (fun info => info.path = p) = none := by
  rw [List.find?_eq_none]
  intro x hx
  simp [h x hx]

/-- Claim C4 (amended): when exceptions are enabled, a load whose `furnsh_c`
fails raises and leaves the kernel registry unchanged — no record is
created, no handle is consumed, the underlying library's loaded-file set is
unchanged and `loadedKernels()` is identical. (With exceptions disabled the
failure is swallowed and a record is still created, per the
counterexample.) -/
theorem loadKernel_rejected_unchanged (st : SpiceManager) (filePath : String)
    (hnew : ∀ k ∈ st._loadedKernels, k.path ≠ st.lib.absPath filePath)
    (hfail : st.lib.furnshOk (st.lib.absPath filePath) = false)
    (hexc : st._useExceptions = true) :
    ((st.loadKernel filePath).1)._loadedKernels = st._loadedKernels ∧
    ((st.loadKernel filePath).1)._lastAssignedKernel =
      st._lastAssignedKernel ∧
    ((st.loadKernel filePath).1).spiceLoaded = st.spiceLoaded ∧
    ((st.loadKernel filePath).1).loadedKernels = st.loadedKernels ∧
    (st.loadKernel filePath).2 = Except.error "Kernel loading" := by
  unfold SpiceManager.loadKernel
  dsimp only
  rw [find?_path_none _ _ hnew, hfail, hexc]
  simp [SpiceManager.loadedKernels]

/-- Witness for `loadKernel_rejected_unchanged` at the concrete state
`ex4e` and path "k.bsp". -/
theorem loadKernel_rejected_unchanged_witness :
    ((ex4e.loadKernel "k.bsp").1)._loadedKernels = [] ∧
    (ex4e.loadKernel "k.bsp").2 = Except.error "Kernel loading" := by
  have h := loadKernel_rejected_unchanged ex4e "k.bsp"
    (by intro k hk; simp [ex4e, ex4] at hk) rfl rfl
  exact ⟨h.1, h.2.2.2.2⟩

/-- Searching the registry with `find?` returns `none` when no record has the handle. -/
theorem find?_id_none (i : Nat) (l : List KernelInformation)
    (h : ∀ k ∈ l, k.id ≠ i) :
    l.find? (fun info => info.id = i) = none := by
  rw [List.find?_eq_none]
  intro x hx
  simp [h x hx]

/-- Evaluating `incRefCount` on a registry whose only matching record is last. -/
theorem incRefCount_append (p : String) (r : KernelInformation)
    (hr : r.path = p) :
    ∀ (l : List KernelInformation), (∀ k ∈ l, k.path ≠ p) →
      incRefCount p (l ++ [r]) = l ++ [{ r with refCount := r.refCount + 1 }]
  | [], _ => by simp [incRefCount, hr]
  | a :: as, h => by
      have ha : a.path ≠ p := h a (by simp)
      have ih := incRefCount_append p r hr as (fun k hk => h k (by simp [hk]))
      simp [incRefCount, ha, ih]

/-- Evaluating `decRefById` on a registry whose only matching record is last. -/
theorem decRefById_append (i : Nat) (r : KernelInformation) (hr : r.id = i) :
    ∀ (l : List KernelInformation), (∀ k ∈ l, k.id ≠ i) →
      decRefById i (l ++ [r]) = l ++ [{ r with refCount := r.refCount - 1 }]
  | [], _ => by simp [decRefById, hr]
  | a :: as, h => by
      have ha : a.id ≠ i := h a (by simp)
      have ih := decRefById_append i r hr as (fun k hk => h k (by simp [hk]))
      simp [decRefById, ha, ih]

/-- Evaluating `eraseFirstById` on a registry whose only matching record is last. -/
theorem eraseFirstById_append (i : Nat) (r : KernelInformation)
    (hr : r.id = i) :
    ∀ (l : List KernelInformation), (∀ k ∈ l, k.id ≠ i) →
      eraseFirstById i (l ++ [r]) = l
  | [], _ => by simp [eraseFirstById, hr]
  | a :: as, h => by
      have ha : a.id ≠ i := h a (by simp)
      have ih := eraseFirstById_append i r hr as (fun k hk => h k (by simp [hk]))
      simp [eraseFirstById, ha, ih]

/-- Coverage indexing touches only the coverage tables: the registry, handle
counter, library, exception flag and the underlying library's state are
untouched. -/
theorem indexKernelCoverage_fields (st : SpiceManager) (p : String) :
    (indexKernelCoverage st p)._loadedKernels = st._loadedKernels ∧
    (indexKernelCoverage st p)._lastAssignedKernel =
      st._lastAssignedKernel ∧
    (indexKernelCoverage st p).lib = st.lib ∧
    (indexKernelCoverage st p)._useExceptions = st._useExceptions ∧
    (indexKernelCoverage st p).spiceLoaded = st.spiceLoaded ∧
    (indexKernelCoverage st p).furnshCount = st.furnshCount := by
  unfold indexKernelCoverage
  split
  · exact ⟨rfl, rfl, rfl, rfl, rfl, rfl⟩
  · split
    · exact ⟨rfl, rfl, rfl, rfl, rfl, rfl⟩
    · exact ⟨rfl, rfl, rfl, rfl, rfl, rfl⟩

/-- Evaluating `loadKernel` on a path with no existing record and a succeeding
`furnsh_c`: coverage is indexed, a fresh handle is assigned and a fresh
record with reference count 1 appended. -/
theorem loadKernel_fresh (s : SpiceManager) (filePath : String)
    (H1 : ∀ k ∈ s._loadedKernels, k.path ≠ s.lib.absPath filePath)
    (H2 : s.lib.furnshOk (s.lib.absPath filePath) = true) :
    s.loadKernel filePath =
      ({ indexKernelCoverage
           { s with furnshCount := s.furnshCount + 1,
                    spiceLoaded := s.spiceLoaded ++ [s.lib.absPath filePath] }
           (s.lib.absPath filePath) with
         _lastAssignedKernel := s._lastAssignedKernel + 1,
         _loadedKernels :=
           s._loadedKernels ++
             [⟨s.lib.absPath filePath, s._lastAssignedKernel + 1, 1⟩] },
       Except.ok (s._lastAssignedKernel + 1)) := by
  have hf := indexKernelCoverage_fields
    { s with furnshCount := s.furnshCount + 1,
             spiceLoaded := s.spiceLoaded ++ [s.lib.absPath filePath] }
    (s.lib.absPath filePath)
  unfold SpiceManager.loadKernel
  dsimp only
  rw [find?_path_none _ _ H1, H2]
  simp only [if_true]
  rw [hf.1, hf.2.1]

/-- Evaluating `loadKernel` on a path whose record already exists (as the last entry):
the reference count is incremented and the existing handle returned; nothing
else changes. -/
theorem loadKernel_existing (s : SpiceManager) (filePath : String)
    (pfx : List KernelInformation) (p : String) (i c : Nat)
    (hp : s.lib.absPath filePath = p)
    (hs : s._loadedKernels = pfx ++ [⟨p, i, c⟩])
    (hpfx : ∀ k ∈ pfx, k.path ≠ p) :
    s.loadKernel filePath =
      ({ s with _loadedKernels := pfx ++ [⟨p, i, c + 1⟩] }, Except.ok i) := by
  unfold SpiceManager.loadKernel
  dsimp only
  rw [hp, hs, List.find?_append, find?_path_none _ _ hpfx]
  simp only [Option.none_or, List.find?_singleton]
  rw [incRefCount_append p ⟨p, i, c⟩ rfl pfx hpfx]
  simp

/-- Evaluating `unloadKernelById` on a registry whose matching record (last entry) has
reference count greater than one: only the count is decremented. -/
theorem unloadKernelById_dec (s : SpiceManager)
    (pfx : List KernelInformation) (p : String) (i c : Nat)
    (hs : s._loadedKernels = pfx ++ [⟨p, i, c⟩])
    (hpfx : ∀ k ∈ pfx, k.id ≠ i) (hc : c ≠ 1) :
    s.unloadKernelById i =
      { s with _loadedKernels := pfx ++ [⟨p, i, c - 1⟩] } := by
  unfold SpiceManager.unloadKernelById
  rw [hs, List.find?_append, find?_id_none _ _ hpfx]
  simp only [Option.none_or, List.find?_singleton]
  rw [decRefById_append i ⟨p, i, c⟩ rfl pfx hpfx]
  simp [hc]

/-- Evaluating `unloadKernelById` on a registry whose matching record (last entry) has
reference count one: the record is erased and the file removed from the
underlying library. -/
theorem unloadKernelById_erase (s : SpiceManager)
    (pfx : List KernelInformation) (p : String) (i : Nat)
    (hs : s._loadedKernels = pfx ++ [⟨p, i, 1⟩])
    (hpfx : ∀ k ∈ pfx, k.id ≠ i) :
    s.unloadKernelById i =
      { s with _loadedKernels := pfx,
               spiceLoaded := s.spiceLoaded.erase p } := by
  unfold SpiceManager.unloadKernelById
  rw [hs, List.find?_append, find?_id_none _ _ hpfx]
  simp only [Option.none_or, List.find?_singleton]
  rw [eraseFirstById_append i ⟨p, i, 1⟩ rfl pfx hpfx]
  simp


/-- Claim C7: loading an already-loaded canonical path a second time returns
the same handle and raises the record's reference count to 2 without creating
a new record or invoking `furnsh_c` again; two unloads are then required —
the first only decrements the count to 1 (the file stays loaded in the
underlying library), the second removes the record and actually unloads the
file. -/
theorem loadKernel_idempotent_two_unloads (st : SpiceManager)
    (filePath : String)
    (H1 : ∀ k ∈ st._loadedKernels, k.path ≠ st.lib.absPath filePath)
    (H2 : st.lib.furnshOk (st.lib.absPath filePath) = true)
    (H3 : ∀ k ∈ st._loadedKernels, k.id ≠ st._lastAssignedKernel + 1)
    (H4 : st.lib.absPath filePath ∉ st.spiceLoaded) :
    ∃ st1 st2 : SpiceManager,
      st.loadKernel filePath =
        (st1, Except.ok (st._lastAssignedKernel + 1)) ∧
      st1._loadedKernels = st._loadedKernels ++
        [⟨st.lib.absPath filePath, st._lastAssignedKernel + 1, 1⟩] ∧
      st1.loadKernel filePath =
        (st2, Except.ok (st._lastAssignedKernel + 1)) ∧
      st2._loadedKernels = st._loadedKernels ++
        [⟨st.lib.absPath filePath, st._lastAssignedKernel + 1, 2⟩] ∧
      st2.furnshCount = st1.furnshCount ∧
      (st2.unloadKernelById (st._lastAssignedKernel + 1))._loadedKernels =
        st._loadedKernels ++
          [⟨st.lib.absPath filePath, st._lastAssignedKernel + 1, 1⟩] ∧
      st.lib.absPath filePath ∈
        (st2.unloadKernelById (st._lastAssignedKernel + 1)).spiceLoaded ∧
      ((st2.unloadKernelById (st._lastAssignedKernel + 1)).unloadKernelById
          (st._lastAssignedKernel + 1))._loadedKernels = st._loadedKernels ∧
      st.lib.absPath filePath ∉
        ((st2.unloadKernelById (st._lastAssignedKernel + 1)).unloadKernelById
          (st._lastAssignedKernel + 1)).spiceLoaded := by
  have hf := indexKernelCoverage_fields
    { st with furnshCount := st.furnshCount + 1,
              spiceLoaded := st.spiceLoaded ++ [st.lib.absPath filePath] }
    (st.lib.absPath filePath)
  obtain ⟨st1, e1, f1, f2, f3⟩ :
      ∃ st1 : SpiceManager,
        st.loadKernel filePath =
          (st1, Except.ok (st._lastAssignedKernel + 1)) ∧
        st1._loadedKernels = st._loadedKernels ++
          [⟨st.lib.absPath filePath, st._lastAssignedKernel + 1, 1⟩] ∧
        st1.lib = st.lib ∧
        st1.spiceLoaded =
          st.spiceLoaded ++ [st.lib.absPath filePath] :=
    ⟨_, loadKernel_fresh st filePath H1 H2, rfl,
     by dsimp only; rw [hf.2.2.1],
     by dsimp only; rw [hf.2.2.2.2.1]⟩
  have e2 : st1.loadKernel filePath =
      ({ st1 with
           _loadedKernels := st._loadedKernels ++
             [⟨st.lib.absPath filePath, st._lastAssignedKernel + 1, 2⟩] },
       Except.ok (st._lastAssignedKernel + 1)) :=
    loadKernel_existing st1 filePath st._loadedKernels
      (st.lib.absPath filePath) (st._lastAssignedKernel + 1) 1
      (by rw [f2]) f1 H1
  have e3 : ({ st1 with
        _loadedKernels := st._loadedKernels ++
          [⟨st.lib.absPath filePath, st._lastAssignedKernel + 1, 2⟩] } :
      SpiceManager).unloadKernelById (st._lastAssignedKernel + 1) =
      { st1 with
          _loadedKernels := st._loadedKernels ++
            [⟨st.lib.absPath filePath, st._lastAssignedKernel + 1, 1⟩] } :=
    unloadKernelById_dec _ st._loadedKernels (st.lib.absPath filePath)
      (st._lastAssignedKernel + 1) 2 rfl H3 (by decide)
  have e4 : ({ st1 with
        _loadedKernels := st._loadedKernels ++
          [⟨st.lib.absPath filePath, st._lastAssignedKernel + 1, 1⟩] } :
      SpiceManager).unloadKernelById (st._lastAssignedKernel + 1) =
      { st1 with
          _loadedKernels := st._loadedKernels,
          spiceLoaded := st1.spiceLoaded.erase (st.lib.absPath filePath) } :=
    unloadKernelById_erase _ st._loadedKernels (st.lib.absPath filePath)
      (st._lastAssignedKernel + 1) rfl H3
  refine ⟨st1,
    { st1 with
        _loadedKernels := st._loadedKernels ++
          [⟨st.lib.absPath filePath, st._lastAssignedKernel + 1, 2⟩] },
    e1, f1, e2, rfl, rfl, ?_, ?_, ?_, ?_⟩
  · rw [e3]
  · rw [e3]
    dsimp only
    rw [f3]
    simp
  · rw [e3, e4]
  · rw [e3, e4]
    dsimp only
    rw [f3, List.erase_append_right _ H4, List.erase_cons_head]
    simpa using H4

/-- Fresh empty manager state whose loads always succeed. -/
def ex7 : SpiceManager where
  lib := trivialLib
  _useExceptions := true
  _loadedKernels := []
  _lastAssignedKernel := 0
  _spkIntervals := []
  _spkCoverageTimes := []
  _ckIntervals := []
  _ckCoverageTimes := []
  spiceLoaded := []
  furnshCount := 0

/-- Witness for `loadKernel_idempotent_two_unloads` at the concrete state
`ex7` and path "a.bsp". -/
theorem loadKernel_idempotent_two_unloads_witness :
    ∃ st1 st2 : SpiceManager,
      ex7.loadKernel "a.bsp" = (st1, Except.ok 1) ∧
      st1._loadedKernels = [⟨"a.bsp", 1, 1⟩] ∧
      st1.loadKernel "a.bsp" = (st2, Except.ok 1) ∧
      st2._loadedKernels = [⟨"a.bsp", 1, 2⟩] ∧
      st2.furnshCount = st1.furnshCount ∧
      (st2.unloadKernelById 1)._loadedKernels = [⟨"a.bsp", 1, 1⟩] ∧
      "a.bsp" ∈ (st2.unloadKernelById 1).spiceLoaded ∧
      ((st2.unloadKernelById 1).unloadKernelById 1)._loadedKernels = [] ∧
      "a.bsp" ∉ ((st2.unloadKernelById 1).unloadKernelById 1).spiceLoaded :=
  loadKernel_idempotent_two_unloads ex7 "a.bsp" (by simp [ex7]) rfl
    (by simp [ex7]) (by simp [ex7])
